import Mathlib

/-!
Shallow embedding of `exporter/exporter.go` from canonical/redis_exporter.

The pure parsing and decision logic of the file (URI scheme rewriting in
`NewRedisExporter`, the gauge/counter mapping tables, `extractConfigMetrics`,
the control flow of `scrapeRedisHost` and `Collect`) is translated directly.
The extraction helpers that live in other files of the repository
(`extractInfoMetrics`, `extractCheckKeyMetrics`, `extractSlowLogMetrics`, ...)
are treated as abstract steps: the host model supplies, for each step, whether
it fails and which observations it would emit; per the spec a failing step
contributes zero observations.  Metric emission through the prometheus channel
is modelled as an ordered list of observations.
-/

set_option linter.unusedVariables false

deriving instance DecidableEq for Except

namespace RedisExporter

/-- One emitted metric sample: metric name, numeric value, and the ordered
label values passed to `registerConstMetricGauge`.  Float values are modelled
as exact rationals. -/
structure Obs where
  name : String
  value : ℚ
  labels : List String
deriving DecidableEq, Repr

/-! ### String helpers modelling the Go standard library functions used -/

/-- Characters of a decimal digit run folded into a number. -/
def natOfDigits (cs : List Char) : Nat :=
  cs.foldl (fun a c => a * 10 + (c.toNat - 48)) 0

/-- A nonempty all-digit run, or failure. -/
def digitRun (cs : List Char) : Option Nat :=
  if cs.isEmpty then none
  else if cs.all Char.isDigit then some (natOfDigits cs)
  else none

def int64Max : Int := 9223372036854775807

def int64Min : Int := -9223372036854775808

/-- Models `strconv.Atoi`: optional sign, then a nonempty digit run; values
outside the 64-bit signed range are an error (`ErrRange`). -/
def goAtoi (s : String) : Option Int :=
  let core : Bool → List Char → Option Int := fun neg ds =>
    match digitRun ds with
    | none => none
    | some n =>
      let v : Int := if neg then -(n : Int) else (n : Int)
      if v < int64Min ∨ int64Max < v then none else some v
  match s.data with
  | '+' :: ds => core false ds
  | '-' :: ds => core true ds
  | ds => core false ds

/-- Split a character list at the first `e`/`E` (exponent marker). -/
def splitMantExp : List Char → List Char × Option (List Char)
  | [] => ([], none)
  | c :: rest =>
    if c == 'e' || c == 'E' then ([], some rest)
    else
      let p := splitMantExp rest
      (c :: p.1, p.2)

/-- Split a character list at the first `.`. -/
def splitIntFrac : List Char → List Char × Option (List Char)
  | [] => ([], none)
  | c :: rest =>
    if c == '.' then ([], some rest)
    else
      let p := splitIntFrac rest
      (c :: p.1, p.2)

/-- Models `strconv.ParseFloat` on the decimal forms the exporter encounters:
optional sign, digits with an optional fraction (at least one digit overall),
and an optional signed decimal exponent.  Hexadecimal floats and `inf`/`nan`
are not modelled; the numeric result is kept exact as a rational instead of a
rounded binary float. -/
def goParseFloat (s : String) : Option ℚ :=
  let parseExpPart : List Char → Option (Bool × Nat) := fun ecs =>
    match ecs with
    | '+' :: eds => (digitRun eds).map (fun n => (false, n))
    | '-' :: eds => (digitRun eds).map (fun n => (true, n))
    | eds => (digitRun eds).map (fun n => (false, n))
  let body : Bool → List Char → Option ℚ := fun neg cs =>
    let me := splitMantExp cs
    let ifr := splitIntFrac me.1
    let ip := ifr.1
    let fp := (ifr.2).getD []
    if !(ip.all Char.isDigit) || !(fp.all Char.isDigit) then none
    else if ip.isEmpty && fp.isEmpty then none
    else
      let num0 : Nat := natOfDigits ip * 10 ^ fp.length + natOfDigits fp
      let num : Int := if neg then -(num0 : Int) else (num0 : Int)
      match me.2 with
      | none => some (mkRat num (10 ^ fp.length))
      | some ecs =>
        match parseExpPart ecs with
        | none => none
        | some ep =>
          if ep.1 then some (mkRat num (10 ^ (fp.length + ep.2)))
          else some (mkRat (num * 10 ^ ep.2) (10 ^ fp.length))
  match s.data with
  | [] => none
  | '+' :: cs => body false cs
  | '-' :: cs => body true cs
  | cs => body false cs

/-- Models `strings.Split(s, " ")` (single-space separator, empty fields
preserved, `Split("", " ") = [""]`). -/
def splitSp : List Char → List (List Char)
  | [] => [[]]
  | c :: rest =>
    if c == ' ' then [] :: splitSp rest
    else
      match splitSp rest with
      | [] => [[c]]
      | g :: gs => (c :: g) :: gs

def goSplitSpace (s : String) : List String :=
  (splitSp s.data).map String.mk

/-- Substring search on character lists (needle first). -/
def containsSubL (n : List Char) : List Char → Bool
  | [] => n.isPrefixOf []
  | c :: t => n.isPrefixOf (c :: t) || containsSubL n t

/-- Models `strings.Contains(hay, needle)`. -/
def goContains (hay needle : String) : Bool :=
  containsSubL needle.data hay.data

/-- Models `strings.ReplaceAll(s, "-", "_")` (single-character pattern). -/
def goDashToUnderscore (s : String) : String :=
  String.mk (s.data.map (fun c => if c == '-' then '_' else c))

/-- Models `strings.Replace(s, pat, rep, 1)`: replace the first occurrence of
`pat` (if any). -/
def goReplaceFirst (pat rep : List Char) : List Char → List Char
  | [] => if pat.isPrefixOf [] then rep else []
  | c :: rest =>
    if pat.isPrefixOf (c :: rest) then rep ++ (c :: rest).drop pat.length
    else c :: goReplaceFirst pat rep rest

/-! ### NewRedisExporter: target URI scheme rewriting (exporter.go lines 98-103) -/

/-- The `switch`/`strings.HasPrefix` rewrite applied to the target URI at the
top of `NewRedisExporter`: `valkey://` becomes `redis://`, `valkeys://`
becomes `rediss://` (first occurrence only, guarded by the prefix check);
every other URI is kept unchanged. -/
def rewriteTargetScheme (uri : String) : String :=
  if "valkey://".data.isPrefixOf uri.data then
    String.mk (goReplaceFirst "valkey://".data "redis://".data uri.data)
  else if "valkeys://".data.isPrefixOf uri.data then
    String.mk (goReplaceFirst "valkeys://".data "rediss://".data uri.data)
  else uri

/-! ### The metric mapping tables built by NewRedisExporter -/

/-- The gauge mapping table literal of `NewRedisExporter` (exporter.go
lines 131-333): source INFO field name to exported metric name. -/
def metricMapGauges : List (String × String) := [
  ("uptime_in_seconds", "uptime_in_seconds"),
  ("process_id", "process_id"),
  ("io_threads_active", "io_threads_active"),
  ("connected_clients", "connected_clients"),
  ("blocked_clients", "blocked_clients"),
  ("maxclients", "max_clients"),
  ("tracking_clients", "tracking_clients"),
  ("clients_in_timeout_table", "clients_in_timeout_table"),
  ("pubsub_clients", "pubsub_clients"),
  ("watching_clients", "watching_clients"),
  ("total_watched_keys", "total_watched_keys"),
  ("total_blocking_keys", "total_blocking_keys"),
  ("total_blocking_keys_on_nokey", "total_blocking_keys_on_nokey"),
  ("client_longest_output_list", "client_longest_output_list"),
  ("client_biggest_input_buf", "client_biggest_input_buf"),
  ("client_recent_max_output_buffer", "client_recent_max_output_buffer_bytes"),
  ("client_recent_max_input_buffer", "client_recent_max_input_buffer_bytes"),
  ("allocator_active", "allocator_active_bytes"),
  ("allocator_allocated", "allocator_allocated_bytes"),
  ("allocator_resident", "allocator_resident_bytes"),
  ("allocator_frag_ratio", "allocator_frag_ratio"),
  ("allocator_frag_bytes", "allocator_frag_bytes"),
  ("allocator_muzzy", "allocator_muzzy_bytes"),
  ("allocator_rss_ratio", "allocator_rss_ratio"),
  ("allocator_rss_bytes", "allocator_rss_bytes"),
  ("used_memory", "memory_used_bytes"),
  ("used_memory_rss", "memory_used_rss_bytes"),
  ("used_memory_peak", "memory_used_peak_bytes"),
  ("used_memory_lua", "memory_used_lua_bytes"),
  ("used_memory_vm_eval", "memory_used_vm_eval_bytes"),
  ("used_memory_scripts_eval", "memory_used_scripts_eval_bytes"),
  ("used_memory_overhead", "memory_used_overhead_bytes"),
  ("used_memory_startup", "memory_used_startup_bytes"),
  ("used_memory_dataset", "memory_used_dataset_bytes"),
  ("number_of_cached_scripts", "number_of_cached_scripts"),
  ("number_of_functions", "number_of_functions"),
  ("number_of_libraries", "number_of_libraries"),
  ("used_memory_vm_functions", "memory_used_vm_functions_bytes"),
  ("used_memory_scripts", "memory_used_scripts_bytes"),
  ("used_memory_functions", "memory_used_functions_bytes"),
  ("used_memory_vm_total", "memory_used_vm_total"),
  ("maxmemory", "memory_max_bytes"),
  ("maxmemory_reservation", "memory_max_reservation_bytes"),
  ("maxmemory_desired_reservation", "memory_max_reservation_desired_bytes"),
  ("maxfragmentationmemory_reservation", "memory_max_fragmentation_reservation_bytes"),
  ("maxfragmentationmemory_desired_reservation", "memory_max_fragmentation_reservation_desired_bytes"),
  ("mem_fragmentation_ratio", "mem_fragmentation_ratio"),
  ("mem_fragmentation_bytes", "mem_fragmentation_bytes"),
  ("mem_clients_slaves", "mem_clients_slaves"),
  ("mem_clients_normal", "mem_clients_normal"),
  ("mem_cluster_links", "mem_cluster_links_bytes"),
  ("mem_aof_buffer", "mem_aof_buffer_bytes"),
  ("mem_replication_backlog", "mem_replication_backlog_bytes"),
  ("expired_stale_perc", "expired_stale_percentage"),
  ("mem_not_counted_for_evict", "mem_not_counted_for_eviction_bytes"),
  ("mem_total_replication_buffers", "mem_total_replication_buffers_bytes"),
  ("mem_overhead_db_hashtable_rehashing", "mem_overhead_db_hashtable_rehashing_bytes"),
  ("lazyfree_pending_objects", "lazyfree_pending_objects"),
  ("lazyfreed_objects", "lazyfreed_objects"),
  ("active_defrag_running", "active_defrag_running"),
  ("migrate_cached_sockets", "migrate_cached_sockets_total"),
  ("active_defrag_hits", "defrag_hits"),
  ("active_defrag_misses", "defrag_misses"),
  ("active_defrag_key_hits", "defrag_key_hits"),
  ("active_defrag_key_misses", "defrag_key_misses"),
  ("expired_time_cap_reached_count", "expired_time_cap_reached_total"),
  ("loading", "loading_dump_file"),
  ("async_loading", "async_loading"),
  ("rdb_changes_since_last_save", "rdb_changes_since_last_save"),
  ("rdb_bgsave_in_progress", "rdb_bgsave_in_progress"),
  ("rdb_last_save_time", "rdb_last_save_timestamp_seconds"),
  ("rdb_last_bgsave_status", "rdb_last_bgsave_status"),
  ("rdb_last_bgsave_time_sec", "rdb_last_bgsave_duration_sec"),
  ("rdb_current_bgsave_time_sec", "rdb_current_bgsave_duration_sec"),
  ("rdb_saves", "rdb_saves_total"),
  ("rdb_last_cow_size", "rdb_last_cow_size_bytes"),
  ("rdb_last_load_keys_expired", "rdb_last_load_expired_keys"),
  ("rdb_last_load_keys_loaded", "rdb_last_load_loaded_keys"),
  ("aof_enabled", "aof_enabled"),
  ("aof_rewrite_in_progress", "aof_rewrite_in_progress"),
  ("aof_rewrite_scheduled", "aof_rewrite_scheduled"),
  ("aof_last_rewrite_time_sec", "aof_last_rewrite_duration_sec"),
  ("aof_current_rewrite_time_sec", "aof_current_rewrite_duration_sec"),
  ("aof_last_cow_size", "aof_last_cow_size_bytes"),
  ("aof_current_size", "aof_current_size_bytes"),
  ("aof_base_size", "aof_base_size_bytes"),
  ("aof_pending_rewrite", "aof_pending_rewrite"),
  ("aof_buffer_length", "aof_buffer_length"),
  ("aof_rewrite_buffer_length", "aof_rewrite_buffer_length"),
  ("aof_pending_bio_fsync", "aof_pending_bio_fsync"),
  ("aof_delayed_fsync", "aof_delayed_fsync"),
  ("aof_last_bgrewrite_status", "aof_last_bgrewrite_status"),
  ("aof_last_write_status", "aof_last_write_status"),
  ("module_fork_in_progress", "module_fork_in_progress"),
  ("module_fork_last_cow_size", "module_fork_last_cow_size"),
  ("current_eviction_exceeded_time", "current_eviction_exceeded_time_ms"),
  ("pubsub_channels", "pubsub_channels"),
  ("pubsub_patterns", "pubsub_patterns"),
  ("pubsubshard_channels", "pubsubshard_channels"),
  ("latest_fork_usec", "latest_fork_usec"),
  ("tracking_total_keys", "tracking_total_keys"),
  ("tracking_total_items", "tracking_total_items"),
  ("tracking_total_prefixes", "tracking_total_prefixes"),
  ("connected_slaves", "connected_slaves"),
  ("repl_backlog_size", "replication_backlog_bytes"),
  ("repl_backlog_active", "repl_backlog_is_active"),
  ("repl_backlog_first_byte_offset", "repl_backlog_first_byte_offset"),
  ("repl_backlog_histlen", "repl_backlog_history_bytes"),
  ("master_repl_offset", "master_repl_offset"),
  ("second_repl_offset", "second_repl_offset"),
  ("slave_expires_tracked_keys", "slave_expires_tracked_keys"),
  ("slave_priority", "slave_priority"),
  ("sync_full", "replica_resyncs_full"),
  ("sync_partial_ok", "replica_partial_resync_accepted"),
  ("sync_partial_err", "replica_partial_resync_denied"),
  ("cluster_stats_messages_sent", "cluster_messages_sent_total"),
  ("cluster_stats_messages_received", "cluster_messages_received_total"),
  ("tile38_aof_size", "tile38_aof_size_bytes"),
  ("tile38_avg_point_size", "tile38_avg_item_size_bytes"),
  ("tile38_sys_cpus", "tile38_cpus_total"),
  ("tile38_heap_released_bytes", "tile38_heap_released_bytes"),
  ("tile38_heap_alloc_bytes", "tile38_heap_size_bytes"),
  ("tile38_http_transport", "tile38_http_transport"),
  ("tile38_in_memory_size", "tile38_in_memory_size_bytes"),
  ("tile38_max_heap_size", "tile38_max_heap_size_bytes"),
  ("tile38_alloc_bytes", "tile38_mem_alloc_bytes"),
  ("tile38_num_collections", "tile38_num_collections_total"),
  ("tile38_num_hooks", "tile38_num_hooks_total"),
  ("tile38_num_objects", "tile38_num_objects_total"),
  ("tile38_num_points", "tile38_num_points_total"),
  ("tile38_pointer_size", "tile38_pointer_size_bytes"),
  ("tile38_read_only", "tile38_read_only"),
  ("tile38_go_threads", "tile38_threads_total"),
  ("tile38_go_goroutines", "tile38_go_goroutines_total"),
  ("tile38_last_gc_time_seconds", "tile38_last_gc_time_seconds"),
  ("tile38_next_gc_bytes", "tile38_next_gc_bytes"),
  ("server_threads", "server_threads_total"),
  ("long_lock_waits", "long_lock_waits_total"),
  ("current_client_thread", "current_client_thread"),
  ("search_number_of_indexes", "search_number_of_indexes"),
  ("search_used_memory_indexes", "search_used_memory_indexes_bytes"),
  ("search_global_idle", "search_global_idle"),
  ("search_global_total", "search_global_total"),
  ("search_bytes_collected", "search_collected_bytes"),
  ("search_dialect_1", "search_dialect_1"),
  ("search_dialect_2", "search_dialect_2"),
  ("search_dialect_3", "search_dialect_3"),
  ("search_dialect_4", "search_dialect_4"),
  ("search_number_of_active_indexes", "search_number_of_active_indexes"),
  ("search_number_of_active_indexes_running_queries", "search_number_of_active_indexes_running_queries"),
  ("search_number_of_active_indexes_indexing", "search_number_of_active_indexes_indexing"),
  ("search_total_active_write_threads", "search_total_active_write_threads"),
  ("search_smallest_memory_index", "search_smallest_memory_index_bytes"),
  ("search_largest_memory_index", "search_largest_memory_index_bytes"),
  ("search_used_memory_vector_index", "search_used_memory_vector_index_bytes"),
  ("search_global_idle_user", "search_global_idle_user"),
  ("search_global_idle_internal", "search_global_idle_internal"),
  ("search_global_total_user", "search_global_total_user"),
  ("search_global_total_internal", "search_global_total_internal"),
  ("search_gc_bytes_collected", "search_gc_collected_bytes"),
  ("search_gc_total_docs_not_collected", "search_gc_total_docs_not_collected"),
  ("search_gc_marked_deleted_vectors", "search_gc_marked_deleted_vectors"),
  ("search_errors_indexing_failures", "search_errors_indexing_failures")]

/-- The counter mapping table literal of `NewRedisExporter` (exporter.go
lines 335-396). -/
def metricMapCounters : List (String × String) := [
  ("total_connections_received", "connections_received_total"),
  ("total_commands_processed", "commands_processed_total"),
  ("rejected_connections", "rejected_connections_total"),
  ("total_net_input_bytes", "net_input_bytes_total"),
  ("total_net_output_bytes", "net_output_bytes_total"),
  ("total_net_repl_input_bytes", "net_repl_input_bytes_total"),
  ("total_net_repl_output_bytes", "net_repl_output_bytes_total"),
  ("expired_subkeys", "expired_subkeys_total"),
  ("expired_keys", "expired_keys_total"),
  ("expired_time_cap_reached_count", "expired_time_cap_reached_total"),
  ("expire_cycle_cpu_milliseconds", "expire_cycle_cpu_time_ms_total"),
  ("evicted_keys", "evicted_keys_total"),
  ("evicted_clients", "evicted_clients_total"),
  ("evicted_scripts", "evicted_scripts_total"),
  ("total_eviction_exceeded_time", "eviction_exceeded_time_ms_total"),
  ("keyspace_hits", "keyspace_hits_total"),
  ("keyspace_misses", "keyspace_misses_total"),
  ("used_cpu_sys", "cpu_sys_seconds_total"),
  ("used_cpu_user", "cpu_user_seconds_total"),
  ("used_cpu_sys_children", "cpu_sys_children_seconds_total"),
  ("used_cpu_user_children", "cpu_user_children_seconds_total"),
  ("used_cpu_sys_main_thread", "cpu_sys_main_thread_seconds_total"),
  ("used_cpu_user_main_thread", "cpu_user_main_thread_seconds_total"),
  ("unexpected_error_replies", "unexpected_error_replies"),
  ("total_error_replies", "total_error_replies"),
  ("dump_payload_sanitizations", "dump_payload_sanitizations"),
  ("total_reads_processed", "total_reads_processed"),
  ("total_writes_processed", "total_writes_processed"),
  ("io_threaded_reads_processed", "io_threaded_reads_processed"),
  ("io_threaded_writes_processed", "io_threaded_writes_processed"),
  ("client_query_buffer_limit_disconnections", "client_query_buffer_limit_disconnections_total"),
  ("client_output_buffer_limit_disconnections", "client_output_buffer_limit_disconnections_total"),
  ("reply_buffer_shrinks", "reply_buffer_shrinks_total"),
  ("reply_buffer_expands", "reply_buffer_expands_total"),
  ("acl_access_denied_auth", "acl_access_denied_auth_total"),
  ("acl_access_denied_cmd", "acl_access_denied_cmd_total"),
  ("acl_access_denied_key", "acl_access_denied_key_total"),
  ("acl_access_denied_channel", "acl_access_denied_channel_total"),
  ("cached_keys", "cached_keys_total"),
  ("storage_provider_read_hits", "storage_provider_read_hits"),
  ("storage_provider_read_misses", "storage_provider_read_misses"),
  ("search_total_indexing_time", "search_indexing_time_ms_total"),
  ("search_total_cycles", "search_cycles_total"),
  ("search_total_ms_run", "search_run_ms_total"),
  ("search_gc_total_cycles", "search_gc_cycles_total"),
  ("search_gc_total_ms_run", "search_gc_run_ms_total"),
  ("search_total_queries_processed", "search_queries_processed_total"),
  ("search_total_query_commands", "search_query_commands_total"),
  ("search_total_query_execution_time_ms", "search_query_execution_time_ms_total"),
  ("search_total_active_queries", "search_active_queries_total")]

/-- The gauge field names after `NewRedisExporter` finishes: the literal
table, plus `total_system_memory` added when `InclSystemMetrics` is set
(line 434). -/
def gaugeFieldNames (inclSystemMetrics : Bool) : List String :=
  (metricMapGauges.map Prod.fst) ++
    (if inclSystemMetrics then ["total_system_memory"] else [])

def counterFieldNames : List String :=
  metricMapCounters.map Prod.fst

/-! ### Options and abstract host behaviour for one scrape -/

/-- Role detected by `extractInfoMetrics` (`InstanceRoleSlave` etc., defined
outside this file; only the comparison with the slave role is used here). -/
inductive Role
  | master
  | slave
  | unknown
deriving DecidableEq, BEq, Repr

/-- The subset of `Options` (plus the stored `redisAddr`) that the code under
verification reads. -/
structure Opts where
  redisAddr : String
  configCommandName : String
  pingOnConnect : Bool
  inclConfigMetrics : Bool
  redactConfigMetrics : Bool
  excludeLatencyHistogramMetrics : Bool
  skipCheckKeysForRoleMaster : Bool
  exportClientList : Bool
  isTile38 : Bool
  inclModulesMetrics : Bool
deriving DecidableEq, Repr

/-- One abstract extraction step: whether it fails, and the observations it
emits when it succeeds.  Modelled from the spec: the extraction helpers live
outside `exporter.go`; per the spec a failing step is caught/logged and
contributes zero observations. -/
structure StepSpec where
  fails : Bool
  obs : List Obs
deriving DecidableEq, Repr

def StepSpec.emit (s : StepSpec) : List Obs :=
  if s.fails then [] else s.obs

/-- The behaviour of the scraped server plus the abstract extraction steps for
one scrape: command outcomes as `scrapeRedisHost` sees them.  `configReply` is
the `CONFIG GET *` reply, each element decoded by `redis.String` (`none` means
that decode fails).  `luaRuns` lists the configured Lua scripts in iteration
order: `some msg` means `extractLuaScriptMetrics` fails with that error. -/
structure Host where
  connectErr : Option String
  connectTook : ℚ
  pingFails : Bool
  pingTook : ℚ
  configReply : Except Unit (List (Option String))
  infoAll : Except Unit String
  infoFallback : Except String String
  clusterInfoFails : Bool
  clusterObs : List Obs
  role : Role
  infoObs : List Obs
  latency : StepSpec
  checkKeys : StepSpec
  countKeys : StepSpec
  streams : StepSpec
  slowLog : StepSpec
  keyGroups : StepSpec
  sentinel : StepSpec
  clientList : StepSpec
  tile38 : StepSpec
  modules : StepSpec
  luaRuns : List (Option String × List Obs)
deriving DecidableEq, Repr

/-! ### extractConfigMetrics (exporter.go lines 598-665) -/

/-- Outcome of `extractConfigMetrics`: the returned database count, an error
return, or a runtime fault (index out of range in the fixed-stride loop). -/
inductive CfgOut
  | panic
  | fail (msg : String)
  | ok (db : Int)
deriving DecidableEq, Repr

/-- The redaction set hard-coded in `extractConfigMetrics`. -/
def sensitiveConfigKey (k : String) : Bool :=
  k == "masterauth" || k == "requirepass" || k == "tls-key-file-pass" ||
    k == "tls-client-key-file-pass"

/-- The `io-threads`/`maxclients`/`maxmemory` set exported as `config_<key>`. -/
def specialConfigKey (k : String) : Bool :=
  k == "io-threads" || k == "maxclients" || k == "maxmemory"

/-- Observations for one 4-token class of `client-output-buffer-limit`:
hard limit, soft limit, overcome seconds — each dropped individually when its
token does not parse as a float.  The overcome observation is labeled
`"soft"`, as in the source. -/
def coblClassObs (c h s t : String) : List Obs :=
  (match goParseFloat h with
    | some v => [⟨"config_client_output_buffer_limit_bytes", v, [c, "hard"]⟩]
    | none => [])
  ++ (match goParseFloat s with
    | some v => [⟨"config_client_output_buffer_limit_bytes", v, [c, "soft"]⟩]
    | none => [])
  ++ (match goParseFloat t with
    | some v => [⟨"config_client_output_buffer_limit_overcome_seconds", v, [c, "soft"]⟩]
    | none => [])

/-- The fixed-stride loop `for i := 0; i < len(splitVal); i += 4`.  The loop
reads `splitVal[i+1]`, `splitVal[i+2]`, `splitVal[i+3]` without a bounds
check; when fewer than four tokens remain, that access is out of range and Go
panics — modelled as `none` (observations already sent before the fault are
dropped together with the crashing scrape). -/
def coblLoop : List String → Option (List Obs)
  | [] => some []
  | c :: h :: s :: t :: rest => (coblLoop rest).map (fun os => coblClassObs c h s t ++ os)
  | _ => none

/-- The per-pair body of the `extractConfigMetrics` loop after the `databases`
check: the `InclConfigMetrics` emission (suppressed for redacted keys), the
`config_<key>` emission for the three special keys (which rewrites `strKey`
in place via `strings.ReplaceAll`), and the `client-output-buffer-limit`
fixed-stride parse (`none` = panic). -/
def pairObs (o : Opts) (k v : String) : Option (List Obs) :=
  let incl : List Obs :=
    if o.inclConfigMetrics && !(sensitiveConfigKey k && o.redactConfigMetrics) then
      ⟨"config_key_value", 1, [k, v]⟩ ::
        (match goParseFloat v with
          | some f => [⟨"config_value", f, [k]⟩]
          | none => [])
    else []
  let special : List Obs × String :=
    if specialConfigKey k then
      match goParseFloat v with
      | some f =>
        let k2 := goDashToUnderscore k
        ([⟨"config_" ++ k2, f, []⟩], k2)
      | none => ([], k)
    else ([], k)
  let cobl : Option (List Obs) :=
    if special.2 == "client-output-buffer-limit" then coblLoop (goSplitSpace v)
    else some []
  cobl.map (fun cs => incl ++ special.1 ++ cs)

/-- The `databases` check at the top of the loop body (lines 616-620): a
matching key replaces the running count via `strconv.Atoi`, whose failure is
an error return. -/
def dbResolve (k v : String) (db : Int) : Except String Int :=
  if k == "databases" then
    match goAtoi v with
    | some n => Except.ok n
    | none => Except.error ("invalid config value for key databases: " ++ v)
  else Except.ok db

/-- The pair loop of `extractConfigMetrics`, two reply elements at a time,
threading the `databases` count.  A non-string key or value skips the pair; a
malformed `databases` value aborts with an error (observations of earlier
pairs were already sent).  The singleton case is unreachable: the caller has
checked the reply length to be even. -/
def cfgLoop (o : Opts) : List (Option String) → Int → List Obs × CfgOut
  | [], db => ([], CfgOut.ok db)
  | [_], db => ([], CfgOut.ok db)
  | k? :: v? :: rest, db =>
    match k? with
    | none => cfgLoop o rest db
    | some k =>
      match v? with
      | none => cfgLoop o rest db
      | some v =>
        match dbResolve k v db with
        | Except.error m => ([], CfgOut.fail m)
        | Except.ok db2 =>
          match pairObs o k v with
          | none => ([], CfgOut.panic)
          | some po =>
            let r := cfgLoop o rest db2
            (po ++ r.1, r.2)

/-- `extractConfigMetrics`: reject odd-length replies, then run the pair loop
starting from a database count of 0. -/
def extractConfigMetrics (o : Opts) (config : List (Option String)) : List Obs × CfgOut :=
  if config.length % 2 != 0 then ([], CfgOut.fail "invalid config")
  else cfgLoop o config 0

/-! ### scrapeRedisHost (exporter.go lines 667-804) and Collect (571-596) -/

/-- The config-fetch phase (lines 710-723): skipped entirely when the
configured command name is the sentinel `"-"`; a failure of the command
itself is only logged (the count stays 0); a successful reply goes through
`extractConfigMetrics`. -/
def configPhase (o : Opts) (h : Host) : List Obs × CfgOut :=
  if o.configCommandName == "-" then ([], CfgOut.ok 0)
  else
    match h.configReply with
    | Except.error _ => ([], CfgOut.ok 0)
    | Except.ok cfg => extractConfigMetrics o cfg

/-- INFO resolution (lines 725-733): `INFO ALL` first; on error or empty
string, fall back to `INFO`, whose failure aborts the scrape. -/
def resolveInfo (h : Host) : Except String String :=
  match h.infoAll with
  | Except.ok s => if s == "" then h.infoFallback else Except.ok s
  | Except.error _ => h.infoFallback

/-- Cluster detection and database-count fixup (lines 736-750): when the
status report contains `cluster_enabled:1` and `CLUSTER INFO` succeeds, emit
the cluster observations and force the count to 1 (a failing `CLUSTER INFO`
leaves the count untouched); without the flag a zero count falls back to the
Redis default of 16. -/
def clusterPhase (h : Host) (s : String) (db : Int) : List Obs × Int :=
  if goContains s "cluster_enabled:1" then
    if h.clusterInfoFails then ([], db) else (h.clusterObs, 1)
  else ([], if db == 0 then 16 else db)

/-- The per-key check gate (line 763): run the check-keys/count-keys/streams
steps when the role is slave or `SkipCheckKeysForRoleMaster` is unset. -/
def checkKeysGate (r : Role) (skip : Bool) : Bool :=
  (r == Role.slave) || !skip

/-- The Lua script loop (lines 795-801): scripts run in order; the first
failure aborts the scrape with that script's error (observations of earlier
scripts were already sent). -/
def luaPhase : List (Option String × List Obs) → List Obs × Option String
  | [] => ([], none)
  | p :: rest =>
    match p.1 with
    | some m => ([], some m)
    | none =>
      let r := luaPhase rest
      (p.2 ++ r.1, r.2)

/-- Everything after INFO resolution (lines 736-803), in source order:
cluster, info metrics (which also yields the role), latency, the gated
per-key steps, slow log, key groups, sentinel, client list, tile38, modules,
Lua scripts.  Returns the observations, the scrape error (only Lua failures
can produce one here), and the final database count handed to
`extractInfoMetrics`/`extractKeyGroupMetrics`. -/
def scrapeTail (o : Opts) (h : Host) (s : String) (db : Int) : List Obs × Option String × Int :=
  let cl := clusterPhase h s db
  let latObs := if o.excludeLatencyHistogramMetrics then [] else h.latency.emit
  let ckObs :=
    if checkKeysGate h.role o.skipCheckKeysForRoleMaster then
      h.checkKeys.emit ++ h.countKeys.emit ++ h.streams.emit
    else []
  let sentObs := if goContains s "# Sentinel" then h.sentinel.emit else []
  let clientObs := if o.exportClientList then h.clientList.emit else []
  let t38Obs := if o.isTile38 then h.tile38.emit else []
  let modObs := if o.inclModulesMetrics then h.modules.emit else []
  let lua := luaPhase h.luaRuns
  (cl.1 ++ h.infoObs ++ latObs ++ ckObs ++ h.slowLog.emit ++ h.keyGroups.emit ++
      sentObs ++ clientObs ++ t38Obs ++ modObs ++ lua.1,
    lua.2, cl.2)

/-- Result of one `scrapeRedisHost` call: the observations sent on the
channel, the returned error, and (as a ghost field used to state the
database-count claims) the count passed to `extractInfoMetrics` — `none` when
the scrape aborted before reaching it. -/
structure ScrapeRun where
  obs : List Obs
  err : Option String
  dbCount : Option Int
deriving DecidableEq, Repr

/-- The connect-time observation (emitted before the error check, line 673)
plus the ping-time observation (emitted only on ping success, lines 692-702). -/
def connectPingObs (o : Opts) (h : Host) : List Obs :=
  ⟨"exporter_last_scrape_connect_time_seconds", h.connectTook, []⟩ ::
    (if o.pingOnConnect && !h.pingFails then
      [⟨"exporter_last_scrape_ping_time_seconds", h.pingTook, []⟩]
    else [])

/-- `scrapeRedisHost`: connect (failure is terminal and returns the error),
ping / client-name side commands, config phase (an `extractConfigMetrics`
error is terminal, a command failure is not), INFO resolution (failure of
both forms is terminal), then the tail steps.  `none` models a Go panic. -/
def scrapeRedisHost (o : Opts) (h : Host) : Option ScrapeRun :=
  match h.connectErr with
  | some e => some ⟨[⟨"exporter_last_scrape_connect_time_seconds", h.connectTook, []⟩], some e, none⟩
  | none =>
    let pre := connectPingObs o h
    let cp := configPhase o h
    match cp.2 with
    | CfgOut.panic => none
    | CfgOut.fail m => some ⟨pre ++ cp.1, some m, none⟩
    | CfgOut.ok db =>
      match resolveInfo h with
      | Except.error m => some ⟨pre ++ cp.1, some m, none⟩
      | Except.ok s =>
        let t := scrapeTail o h s db
        some ⟨pre ++ cp.1 ++ t.1, t.2.1, some t.2.2⟩

/-- `Collect` (lines 571-596) for one scrape attempt: when an address is
configured, run `scrapeRedisHost`, then emit `exporter_last_scrape_error`
(1 labeled with the error text, or 0 with an empty label), `up`, and
`exporter_last_scrape_duration_seconds` with the measured duration `took`.
The three trailing self-metric channel sends (`totalScrapes`,
`scrapeDuration`, `targetScrapeRequestErrors`) are prometheus-internal
counters, outside the observation model. -/
def collect (o : Opts) (h : Host) (took : ℚ) : Option (List Obs) :=
  if o.redisAddr == "" then some []
  else
    match scrapeRedisHost o h with
    | none => none
    | some r =>
      let tail : List Obs :=
        match r.err with
        | some e => [⟨"exporter_last_scrape_error", 1, [e]⟩, ⟨"up", 0, []⟩]
        | none => [⟨"exporter_last_scrape_error", 0, [""]⟩, ⟨"up", 1, []⟩]
      some (r.obs ++ tail ++ [⟨"exporter_last_scrape_duration_seconds", took, []⟩])

/-! ### Auxiliary definitions used by the verification statements -/

/-- Replace a failing step by a succeeding step that emits nothing; a step
that succeeds is kept as is.  Stating that a scrape is unchanged under this
replacement expresses "a failing step contributes zero observations and the
other steps are unaffected". -/
def clearStep (x : StepSpec) : StepSpec :=
  if x.fails then ⟨false, []⟩ else x

/-- Apply `clearStep` to every non-terminal extraction step of a host. -/
def clearFailedSteps (h : Host) : Host :=
  { h with
    latency := clearStep h.latency
    checkKeys := clearStep h.checkKeys
    countKeys := clearStep h.countKeys
    streams := clearStep h.streams
    slowLog := clearStep h.slowLog
    keyGroups := clearStep h.keyGroups
    sentinel := clearStep h.sentinel
    clientList := clearStep h.clientList
    tile38 := clearStep h.tile38
    modules := clearStep h.modules }

/-- The host with the three per-key steps replaced by empty succeeding steps:
a scrape that skips them is indistinguishable from one whose per-key steps
exist but emit nothing. -/
def dropCheckSteps (h : Host) : Host :=
  { h with checkKeys := ⟨false, []⟩, countKeys := ⟨false, []⟩, streams := ⟨false, []⟩ }

/-- Two `CONFIG GET` replies that pair the same keys in the same order and
differ at most in the values attached to sensitive (redacted) keys. -/
inductive SensEquiv : List (Option String) → List (Option String) → Prop
  | nil : SensEquiv [] []
  | same (k? v? : Option String) {r1 r2 : List (Option String)} :
      SensEquiv r1 r2 → SensEquiv (k? :: v? :: r1) (k? :: v? :: r2)
  | sens (k : String) (v1? v2? : Option String) {r1 r2 : List (Option String)} :
      sensitiveConfigKey k = true → SensEquiv r1 r2 →
      SensEquiv (some k :: v1? :: r1) (some k :: v2? :: r2)

/-! ### Concrete fixtures for witnesses and counterexamples -/

/-- Default option set: feature toggles off, default command name. -/
def baseOpts : Opts :=
  { redisAddr := "redis://localhost:6379"
    configCommandName := "CONFIG"
    pingOnConnect := false
    inclConfigMetrics := false
    redactConfigMetrics := false
    excludeLatencyHistogramMetrics := false
    skipCheckKeysForRoleMaster := false
    exportClientList := false
    isTile38 := false
    inclModulesMetrics := false }

/-- `baseOpts` with config metrics included and redaction on. -/
def redactOpts : Opts :=
  { baseOpts with inclConfigMetrics := true, redactConfigMetrics := true }

/-- `baseOpts` with the skip-checks-for-master policy enabled. -/
def skipOpts : Opts := { baseOpts with skipCheckKeysForRoleMaster := true }

/-- A step that succeeds and emits nothing. -/
def okStep : StepSpec := ⟨false, []⟩

/-- A healthy host: connection, empty config reply and INFO all succeed;
every extraction step succeeds emitting nothing; no Lua scripts. -/
def baseHost : Host :=
  { connectErr := none
    connectTook := mkRat 1 100
    pingFails := false
    pingTook := 0
    configReply := Except.ok []
    infoAll := Except.ok "# Server\nrole:master"
    infoFallback := Except.error "INFO failed"
    clusterInfoFails := false
    clusterObs := []
    role := Role.master
    infoObs := []
    latency := okStep
    checkKeys := okStep
    countKeys := okStep
    streams := okStep
    slowLog := okStep
    keyGroups := okStep
    sentinel := okStep
    clientList := okStep
    tile38 := okStep
    modules := okStep
    luaRuns := [] }

/-- A healthy host whose single Lua script fails. -/
def luaFailHost : Host :=
  { baseHost with luaRuns := [(some "user_script error", [])] }

/-- A healthy host whose `CONFIG GET` command itself fails. -/
def cfgCmdFailHost : Host :=
  { baseHost with configReply := Except.error () }

/-- A host whose connection attempt fails. -/
def connFailHost : Host :=
  { baseHost with connectErr := some "dial tcp 127.0.0.1:6379: connect: connection refused" }

/-- A host reporting `databases` = 32, a cluster-enabled status report, and a
failing `CLUSTER INFO` command. -/
def clusterInfoFailHost : Host :=
  { baseHost with
    configReply := Except.ok [some "databases", some "32"]
    infoAll := Except.ok "cluster_enabled:1"
    clusterInfoFails := true }

/-- A host reporting `databases` = 32 and a cluster-enabled status report
with a succeeding `CLUSTER INFO` command. -/
def clusterOkHost : Host :=
  { baseHost with
    configReply := Except.ok [some "databases", some "32"]
    infoAll := Except.ok "cluster_enabled:1" }

/-! ### Shared lemmas about the scrape pipeline -/

lemma scrapeRedisHost_connect_fail (o : Opts) (h : Host) (e : String)
    (hc : h.connectErr = some e) :
    scrapeRedisHost o h =
      some ⟨[⟨"exporter_last_scrape_connect_time_seconds", h.connectTook, []⟩], some e, none⟩ := by
  simp only [scrapeRedisHost, hc]

lemma scrapeRedisHost_ok (o : Opts) (h : Host) (co : List Obs) (db : Int) (s : String)
    (hconn : h.connectErr = none) (hcfg : configPhase o h = (co, CfgOut.ok db))
    (hinfo : resolveInfo h = Except.ok s) :
    scrapeRedisHost o h =
      some ⟨connectPingObs o h ++ co ++ (scrapeTail o h s db).1,
        (scrapeTail o h s db).2.1, some (scrapeTail o h s db).2.2⟩ := by
  simp only [scrapeRedisHost, hconn, hcfg, hinfo]

lemma scrapeRedisHost_cfg_fail (o : Opts) (h : Host) (co : List Obs) (m : String)
    (hconn : h.connectErr = none) (hcfg : configPhase o h = (co, CfgOut.fail m)) :
    scrapeRedisHost o h = some ⟨connectPingObs o h ++ co, some m, none⟩ := by
  simp only [scrapeRedisHost, hconn, hcfg]

lemma scrapeRedisHost_info_fail (o : Opts) (h : Host) (co : List Obs) (db : Int) (m : String)
    (hconn : h.connectErr = none) (hcfg : configPhase o h = (co, CfgOut.ok db))
    (hinfo : resolveInfo h = Except.error m) :
    scrapeRedisHost o h = some ⟨connectPingObs o h ++ co, some m, none⟩ := by
  simp only [scrapeRedisHost, hconn, hcfg, hinfo]

lemma luaPhase_all_ok (l : List (Option String × List Obs))
    (h : ∀ p ∈ l, p.1 = (none : Option String)) : (luaPhase l).2 = none := by
  induction l with
  | nil => rfl
  | cons p rest ih =>
    have hp : p.1 = none := h p (by simp)
    simp only [luaPhase, hp]
    exact ih (fun q hq => h q (by simp [hq]))

lemma configPhase_cmd_fail (o : Opts) (h : Host)
    (hname : o.configCommandName ≠ "-") (hrep : h.configReply = Except.error ()) :
    configPhase o h = ([], CfgOut.ok 0) := by
  simp [configPhase, hname, hrep]

lemma emit_clearStep (x : StepSpec) : (clearStep x).emit = x.emit := by
  cases x with
  | mk f ob => cases f <;> simp [clearStep, StepSpec.emit]

lemma scrapeTail_clear (o : Opts) (h : Host) (s : String) (db : Int) :
    scrapeTail o (clearFailedSteps h) s db = scrapeTail o h s db := by
  cases h
  simp only [scrapeTail, clearFailedSteps, clusterPhase, emit_clearStep]

lemma scrapeTail_gate_false (o : Opts) (h : Host) (s : String) (db : Int)
    (hg : checkKeysGate h.role o.skipCheckKeysForRoleMaster = false) (ck ct st : StepSpec) :
    scrapeTail o { h with checkKeys := ck, countKeys := ct, streams := st } s db =
      scrapeTail o h s db := by
  cases h
  simp only [scrapeTail] at hg ⊢
  simp [clusterPhase, hg]

lemma pairObs_sensitive (o : Opts) (hred : o.redactConfigMetrics = true)
    (k : String) (hk : sensitiveConfigKey k = true)
    (hsp : specialConfigKey k = false) (hcob : (k == "client-output-buffer-limit") = false)
    (v : String) : pairObs o k v = some [] := by
  unfold pairObs
  simp [hk, hred, hsp, hcob]

lemma sensitive_key_cases (k : String) (hk : sensitiveConfigKey k = true) :
    k = "masterauth" ∨ k = "requirepass" ∨ k = "tls-key-file-pass" ∨
      k = "tls-client-key-file-pass" := by
  simpa [sensitiveConfigKey, beq_iff_eq, or_assoc] using hk

lemma cfgLoop_sens (o : Opts) (hred : o.redactConfigMetrics = true)
    (k : String) (hk : sensitiveConfigKey k = true)
    (v? : Option String) (rest : List (Option String)) (db : Int) :
    cfgLoop o (some k :: v? :: rest) db = cfgLoop o rest db := by
  cases v? with
  | none => rfl
  | some v =>
    have hdbk : dbResolve k v db = Except.ok db := by
      rcases sensitive_key_cases k hk with rfl | rfl | rfl | rfl <;> simp [dbResolve]
    have hsp : specialConfigKey k = false := by
      rcases sensitive_key_cases k hk with rfl | rfl | rfl | rfl <;> decide
    have hcob : (k == "client-output-buffer-limit") = false := by
      rcases sensitive_key_cases k hk with rfl | rfl | rfl | rfl <;> decide
    simp [cfgLoop, hdbk, pairObs_sensitive o hred k hk hsp hcob v]

lemma sensEquiv_length {l1 l2 : List (Option String)} (h : SensEquiv l1 l2) :
    l1.length = l2.length := by
  induction h <;> simp [*]

lemma cfgLoop_sensEquiv (o : Opts) (hred : o.redactConfigMetrics = true)
    {l1 l2 : List (Option String)} (h : SensEquiv l1 l2) :
    ∀ db, cfgLoop o l1 db = cfgLoop o l2 db := by
  induction h with
  | nil => intro db; rfl
  | same k? v? hr ih =>
    intro db
    cases k? with
    | none => simp only [cfgLoop]; exact ih db
    | some k =>
      cases v? with
      | none => simp only [cfgLoop]; exact ih db
      | some v =>
        simp only [cfgLoop]
        rcases hdb : dbResolve k v db with m | db2
        · simp [hdb]
        · rcases hp : pairObs o k v with _ | po
          · simp [hdb, hp]
          · simp [hdb, hp, ih db2]
  | sens k v1? v2? hk hr ih =>
    intro db
    rw [cfgLoop_sens o hred k hk v1? _ db, cfgLoop_sens o hred k hk v2? _ db]
    exact ih db

lemma isPfx_append (l t : List Char) : l.isPrefixOf (l ++ t) = true := by
  induction l with
  | nil => simp
  | cons c cs ih => simp [ih]

lemma goReplaceFirst_of_pfx (pat rep : List Char) (s : List Char)
    (h : pat.isPrefixOf s = true) :
    goReplaceFirst pat rep s = rep ++ s.drop pat.length := by
  cases s with
  | nil => simp [goReplaceFirst, h]
  | cons c rest => simp [goReplaceFirst, h]

lemma gaugeCounterCommon :
    (metricMapGauges.map Prod.fst).filter (fun k => counterFieldNames.contains k) =
      ["expired_time_cap_reached_count"] := by decide

/-! ### Claim theorems -/

/-- Claim C1, counterexample: the gauge and counter mapping tables are not
disjoint — the source field `expired_time_cap_reached_count` is a key of
both `metricMapGauges` (line 219) and `metricMapCounters` (line 348). -/
theorem gauge_counter_tables_overlap_cex :
    "expired_time_cap_reached_count" ∈ gaugeFieldNames false ∧
      "expired_time_cap_reached_count" ∈ counterFieldNames := by decide

/-- Claim C1 (amended): the gauge and counter mapping tables built by
`NewRedisExporter` (for either value of `InclSystemMetrics`) are disjoint
except for the single source field `expired_time_cap_reached_count`, which
appears in both. -/
theorem gauge_counter_tables_overlap_once (b : Bool) (k : String)
    (hg : k ∈ gaugeFieldNames b) (hc : k ∈ counterFieldNames) :
    k = "expired_time_cap_reached_count" := by
  have hg' : k ∈ metricMapGauges.map Prod.fst := by
    unfold gaugeFieldNames at hg
    rcases List.mem_append.mp hg with h | h
    · exact h
    · cases b with
      | false => simp at h
      | true =>
        simp only [if_true, List.mem_singleton] at h
        subst h
        exact absurd hc (by decide)
  have hmem : k ∈ (metricMapGauges.map Prod.fst).filter
      (fun k => counterFieldNames.contains k) := by
    refine List.mem_filter.mpr ⟨hg', ?_⟩
    exact List.elem_iff.mpr hc
  rw [gaugeCounterCommon] at hmem
  simpa using hmem

/-- Witness for the amended C1 at the overlapping field itself. -/
theorem gauge_counter_tables_overlap_once_witness :
    "expired_time_cap_reached_count" ∈ gaugeFieldNames true ∧
      "expired_time_cap_reached_count" ∈ counterFieldNames ∧
      "expired_time_cap_reached_count" = "expired_time_cap_reached_count" :=
  ⟨by decide, by decide,
    gauge_counter_tables_overlap_once true "expired_time_cap_reached_count"
      (by decide) (by decide)⟩

/-- Claim C6, counterexample: parsing `client-output-buffer-limit =
"normal 0 0 0 slave 10 20 5"` emits two overcome-seconds observations (the
`normal` class's fourth token `"0"` parses as a float and is emitted too),
not exactly one for `slave`. -/
theorem cobl_scenario_two_overcome_cex :
    ((extractConfigMetrics baseOpts
          [some "client-output-buffer-limit", some "normal 0 0 0 slave 10 20 5"]).1.filter
        (fun ob => ob.name == "config_client_output_buffer_limit_overcome_seconds")).length
      = 2 := by decide

/-- Claim C6 (amended): parsing `client-output-buffer-limit =
"normal 0 0 0 slave 10 20 5"` emits observations for exactly the two classes
`normal` and `slave`; each class yields one hard and one soft byte-limit
observation and one overcome-seconds observation (value 0 for `normal`,
5 for `slave`). -/
theorem cobl_scenario_observations :
    extractConfigMetrics baseOpts
        [some "client-output-buffer-limit", some "normal 0 0 0 slave 10 20 5"] =
      ([⟨"config_client_output_buffer_limit_bytes", 0, ["normal", "hard"]⟩,
        ⟨"config_client_output_buffer_limit_bytes", 0, ["normal", "soft"]⟩,
        ⟨"config_client_output_buffer_limit_overcome_seconds", 0, ["normal", "soft"]⟩,
        ⟨"config_client_output_buffer_limit_bytes", 10, ["slave", "hard"]⟩,
        ⟨"config_client_output_buffer_limit_bytes", 20, ["slave", "soft"]⟩,
        ⟨"config_client_output_buffer_limit_overcome_seconds", 5, ["slave", "soft"]⟩],
       CfgOut.ok 0) := by decide

/-- Claim C7: the fixed-stride loop over `client-output-buffer-limit` tokens
reads `splitVal[i+1]`..`splitVal[i+3]` without a bounds check; on a value
whose token count is not a multiple of 4 (here `"normal 0 0"`, three tokens)
the access is out of range and the parse faults instead of completing. -/
theorem cobl_stride_out_of_bounds :
    extractConfigMetrics baseOpts [some "client-output-buffer-limit", some "normal 0 0"] =
        ([], CfgOut.panic) ∧
      goSplitSpace "normal 0 0" = ["normal", "0", "0"] ∧
      coblLoop ["normal", "0", "0"] = none := by decide

/-- Claim C10: `NewRedisExporter` rewrites the target URI scheme: a URI
beginning with `valkey://` has that first occurrence replaced by `redis://`,
one beginning with `valkeys://` has it replaced by `rediss://`, and every
other URI is stored unchanged. -/
theorem uri_scheme_rewrite :
    (∀ rest : List Char,
      rewriteTargetScheme (String.mk ("valkey://".data ++ rest)) =
        String.mk ("redis://".data ++ rest)) ∧
    (∀ rest : List Char,
      rewriteTargetScheme (String.mk ("valkeys://".data ++ rest)) =
        String.mk ("rediss://".data ++ rest)) ∧
    (∀ uri : String, "valkey://".data.isPrefixOf uri.data = false →
      "valkeys://".data.isPrefixOf uri.data = false → rewriteTargetScheme uri = uri) := by
  refine ⟨fun rest => ?_, fun rest => ?_, fun uri h1 h2 => ?_⟩
  · unfold rewriteTargetScheme
    rw [show (String.mk ("valkey://".data ++ rest)).data = "valkey://".data ++ rest from rfl,
      isPfx_append]
    show String.mk (goReplaceFirst "valkey://".data "redis://".data ("valkey://".data ++ rest)) =
      String.mk ("redis://".data ++ rest)
    rw [goReplaceFirst_of_pfx _ _ _ (isPfx_append _ _), List.drop_left]
  · unfold rewriteTargetScheme
    rw [show (String.mk ("valkeys://".data ++ rest)).data = "valkeys://".data ++ rest from rfl,
      show "valkey://".data.isPrefixOf ("valkeys://".data ++ rest) = false from rfl,
      isPfx_append]
    show String.mk (goReplaceFirst "valkeys://".data "rediss://".data ("valkeys://".data ++ rest)) =
      String.mk ("rediss://".data ++ rest)
    rw [goReplaceFirst_of_pfx _ _ _ (isPfx_append _ _), List.drop_left]
  · simp [rewriteTargetScheme, h1, h2]

/-- Witness for C10 at a URI with neither prefix. -/
theorem uri_scheme_rewrite_witness :
    "valkey://".data.isPrefixOf "redis://localhost:6379".data = false ∧
      "valkeys://".data.isPrefixOf "redis://localhost:6379".data = false ∧
      rewriteTargetScheme "redis://localhost:6379" = "redis://localhost:6379" :=
  ⟨by decide, by decide,
    uri_scheme_rewrite.2.2 "redis://localhost:6379" (by decide) (by decide)⟩

/-- Claim C2, counterexample: Lua scripts are an exception — on a host whose
connection and INFO succeed but whose single configured Lua script fails,
`scrapeRedisHost` returns that error (lines 795-801 `return err`), and
`Collect` emits `up=0` and `exporter_last_scrape_error=1`. -/
theorem lua_failure_aborts_scrape_cex :
    luaFailHost.connectErr = none ∧
      resolveInfo luaFailHost = Except.ok "# Server\nrole:master" ∧
      scrapeRedisHost baseOpts luaFailHost =
        some ⟨[⟨"exporter_last_scrape_connect_time_seconds", mkRat 1 100, []⟩],
          some "user_script error", some 16⟩ ∧
      collect baseOpts luaFailHost 1 =
        some [⟨"exporter_last_scrape_connect_time_seconds", mkRat 1 100, []⟩,
          ⟨"exporter_last_scrape_error", 1, ["user_script error"]⟩, ⟨"up", 0, []⟩,
          ⟨"exporter_last_scrape_duration_seconds", 1, []⟩] := by decide

/-- Claim C2 (amended): for every scrape in which connecting, the config
phase and INFO succeed and no Lua script fails, `scrapeRedisHost` returns
success even when any of the other extraction steps (latency, check-keys,
count-keys, streams, slow-log, key-groups, sentinel, client-list, tile38,
modules) fail: the scrape result is unchanged when every failing step is
replaced by one that succeeds and emits nothing (a failing step contributes
zero observations and the remaining steps still run), and `Collect` emits
`exporter_last_scrape_error=0` and `up=1`.  A Lua-script failure, by
contrast, aborts the scrape (see the counterexample). -/
theorem scrape_step_failures_nonfatal (o : Opts) (h : Host) (co : List Obs) (db : Int)
    (s : String) (took : ℚ)
    (hconn : h.connectErr = none)
    (hcfg : configPhase o h = (co, CfgOut.ok db))
    (hinfo : resolveInfo h = Except.ok s)
    (hlua : ∀ p ∈ h.luaRuns, p.1 = (none : Option String))
    (haddr : o.redisAddr ≠ "") :
    (∃ r, scrapeRedisHost o h = some r ∧ r.err = none) ∧
    scrapeRedisHost o h = scrapeRedisHost o (clearFailedSteps h) ∧
    (∃ l, collect o h took =
      some (l ++ [⟨"exporter_last_scrape_error", 0, [""]⟩, ⟨"up", 1, []⟩,
        ⟨"exporter_last_scrape_duration_seconds", took, []⟩])) := by
  have herr : (scrapeTail o h s db).2.1 = none := by
    have he : (scrapeTail o h s db).2.1 = (luaPhase h.luaRuns).2 := rfl
    rw [he]
    exact luaPhase_all_ok h.luaRuns hlua
  have hrun := scrapeRedisHost_ok o h co db s hconn hcfg hinfo
  refine ⟨⟨_, hrun, herr⟩, ?_, ?_⟩
  · have hconn2 : (clearFailedSteps h).connectErr = none := hconn
    have hcfg2 : configPhase o (clearFailedSteps h) = (co, CfgOut.ok db) := hcfg
    have hinfo2 : resolveInfo (clearFailedSteps h) = Except.ok s := hinfo
    rw [hrun, scrapeRedisHost_ok o (clearFailedSteps h) co db s hconn2 hcfg2 hinfo2,
      scrapeTail_clear]
    rfl
  · have hb : (o.redisAddr == "") = false := beq_eq_false_iff_ne.mpr haddr
    refine ⟨connectPingObs o h ++ co ++ (scrapeTail o h s db).1, ?_⟩
    simp [collect, hb, hrun, herr]

/-- Witness for the amended C2 on a fully healthy host. -/
theorem scrape_step_failures_nonfatal_witness :
    baseHost.connectErr = none ∧
      (∃ r, scrapeRedisHost baseOpts baseHost = some r ∧ r.err = none) :=
  ⟨rfl, (scrape_step_failures_nonfatal baseOpts baseHost [] 0 "# Server\nrole:master" 1
    rfl (by decide) (by decide) (by decide) (by decide)).1⟩

/-- Claim C3, counterexample: with the config command not disabled, a failure
of the `CONFIG GET` command itself is not terminal — the error is only
logged (line 721) and the scrape completes successfully with the default
database count. -/
theorem config_cmd_failure_nonterminal_cex :
    baseOpts.configCommandName ≠ "-" ∧
      cfgCmdFailHost.configReply = Except.error () ∧
      scrapeRedisHost baseOpts cfgCmdFailHost =
        some ⟨[⟨"exporter_last_scrape_connect_time_seconds", mkRat 1 100, []⟩], none, some 16⟩ :=
  ⟨by decide, rfl, by decide⟩

/-- Claim C3 (amended): when `ConfigCommandName` is not the sentinel `"-"`, a
failure of the `CONFIG GET` command itself is non-fatal and behaves exactly
like the intentional skip (the count stays 0 and no config observations are
emitted); what is terminal is a malformed reply — an `extractConfigMetrics`
error aborts the scrape with that error. -/
theorem config_cmd_failure_vs_malformed_reply (o : Opts) (h : Host)
    (l : List (Option String)) (co : List Obs) (m : String)
    (hname : o.configCommandName ≠ "-") :
    (h.configReply = Except.error () →
      scrapeRedisHost o h = scrapeRedisHost { o with configCommandName := "-" } h) ∧
    (h.connectErr = none → h.configReply = Except.ok l →
      extractConfigMetrics o l = (co, CfgOut.fail m) →
      scrapeRedisHost o h = some ⟨connectPingObs o h ++ co, some m, none⟩) := by
  constructor
  · intro hrep
    have hcfg1 : configPhase o h = ([], CfgOut.ok 0) := configPhase_cmd_fail o h hname hrep
    have hcfg2 : configPhase { o with configCommandName := "-" } h = ([], CfgOut.ok 0) := by
      simp [configPhase]
    cases hce : h.connectErr with
    | some e =>
      rw [scrapeRedisHost_connect_fail o h e hce,
        scrapeRedisHost_connect_fail { o with configCommandName := "-" } h e hce]
    | none =>
      cases hri : resolveInfo h with
      | error msg =>
        rw [scrapeRedisHost_info_fail o h [] 0 msg hce hcfg1 hri,
          scrapeRedisHost_info_fail _ h [] 0 msg hce hcfg2 hri]
        rfl
      | ok s =>
        rw [scrapeRedisHost_ok o h [] 0 s hce hcfg1 hri,
          scrapeRedisHost_ok _ h [] 0 s hce hcfg2 hri]
        rfl
  · intro hconn hrep hext
    have hcfg : configPhase o h = (co, CfgOut.fail m) := by
      simp [configPhase, hname, hrep, hext]
    exact scrapeRedisHost_cfg_fail o h co m hconn hcfg

/-- Witness for the amended C3 on a host whose `CONFIG GET` command fails. -/
theorem config_cmd_failure_vs_malformed_reply_witness :
    baseOpts.configCommandName ≠ "-" ∧
      cfgCmdFailHost.configReply = Except.error () ∧
      scrapeRedisHost baseOpts cfgCmdFailHost =
        scrapeRedisHost { baseOpts with configCommandName := "-" } cfgCmdFailHost :=
  ⟨by decide, rfl,
    (config_cmd_failure_vs_malformed_reply baseOpts cfgCmdFailHost [] [] "" (by decide)).1 rfl⟩

/-- Claim C4, counterexample: on a connection failure the scrape emits four
observation series, not just `up` and `exporter_last_scrape_error` — the
connect-time observation (line 673) precedes the error check and `Collect`
always appends the scrape-duration observation. -/
theorem connect_failure_extra_observations_cex :
    (collect baseOpts connFailHost 1).map (fun obs => obs.map Obs.name) =
      some ["exporter_last_scrape_connect_time_seconds", "exporter_last_scrape_error", "up",
        "exporter_last_scrape_duration_seconds"] := by decide

/-- Claim C4 (amended): for every scrape in which connecting fails, the
emitted observations are exactly `exporter_last_scrape_connect_time_seconds`,
`exporter_last_scrape_error=1` labeled with the error text, `up=0`, and
`exporter_last_scrape_duration_seconds` — and nothing else: no metric from
any extraction step is emitted. -/
theorem connect_failure_observation_set (o : Opts) (h : Host) (e : String) (took : ℚ)
    (haddr : o.redisAddr ≠ "") (hc : h.connectErr = some e) :
    collect o h took =
      some [⟨"exporter_last_scrape_connect_time_seconds", h.connectTook, []⟩,
        ⟨"exporter_last_scrape_error", 1, [e]⟩, ⟨"up", 0, []⟩,
        ⟨"exporter_last_scrape_duration_seconds", took, []⟩] := by
  have hb : (o.redisAddr == "") = false := beq_eq_false_iff_ne.mpr haddr
  simp [collect, hb, scrapeRedisHost_connect_fail o h e hc]

/-- Witness for the amended C4 on a host whose connection is refused. -/
theorem connect_failure_observation_set_witness :
    baseOpts.redisAddr ≠ "" ∧
      connFailHost.connectErr = some "dial tcp 127.0.0.1:6379: connect: connection refused" ∧
      collect baseOpts connFailHost 2 =
        some [⟨"exporter_last_scrape_connect_time_seconds", mkRat 1 100, []⟩,
          ⟨"exporter_last_scrape_error", 1,
            ["dial tcp 127.0.0.1:6379: connect: connection refused"]⟩,
          ⟨"up", 0, []⟩, ⟨"exporter_last_scrape_duration_seconds", 2, []⟩] :=
  ⟨by decide, rfl, connect_failure_observation_set baseOpts connFailHost _ 2 (by decide) rfl⟩

/-- Claim C5, counterexample: with `databases` = 32 in the config and
`cluster_enabled:1` in the status report, a failing `CLUSTER INFO` command
leaves the database count at 32 (lines 737-744) — the count is not forced to
1 "regardless". -/
theorem cluster_flag_config_count_kept_cex :
    goContains "cluster_enabled:1" "cluster_enabled:1" = true ∧
      clusterInfoFailHost.clusterInfoFails = true ∧
      (scrapeRedisHost baseOpts clusterInfoFailHost).map ScrapeRun.dbCount = some (some 32) :=
  ⟨by decide, rfl, by decide⟩

/-- Claim C5 (amended): database count resolution — the config phase's
`databases` value is used; when the status report contains
`cluster_enabled:1` and `CLUSTER INFO` succeeds, the count is forced to 1
regardless of the config value (if `CLUSTER INFO` fails the config value is
kept, even 0); when the flag is absent, a zero count (config unavailable,
disabled or failed) falls back to the built-in default 16. -/
theorem db_count_resolution (o : Opts) (h : Host) (co : List Obs) (db : Int) (s : String)
    (hconn : h.connectErr = none) (hcfg : configPhase o h = (co, CfgOut.ok db))
    (hinfo : resolveInfo h = Except.ok s) :
    (goContains s "cluster_enabled:1" = true → h.clusterInfoFails = false →
      (scrapeRedisHost o h).map ScrapeRun.dbCount = some (some 1)) ∧
    (goContains s "cluster_enabled:1" = false → db ≠ 0 →
      (scrapeRedisHost o h).map ScrapeRun.dbCount = some (some db)) ∧
    (goContains s "cluster_enabled:1" = false → db = 0 →
      (scrapeRedisHost o h).map ScrapeRun.dbCount = some (some 16)) ∧
    (goContains s "cluster_enabled:1" = true → h.clusterInfoFails = true →
      (scrapeRedisHost o h).map ScrapeRun.dbCount = some (some db)) := by
  have hrun := scrapeRedisHost_ok o h co db s hconn hcfg hinfo
  have hdb : (scrapeRedisHost o h).map ScrapeRun.dbCount =
      some (some (clusterPhase h s db).2) := by
    rw [hrun]
    rfl
  refine ⟨fun hcl hf => ?_, fun hcl hne => ?_, fun hcl h0 => ?_, fun hcl hf => ?_⟩
  · rw [hdb]; simp [clusterPhase, hcl, hf]
  · rw [hdb]
    have hb : (db == 0) = false := beq_eq_false_iff_ne.mpr hne
    simp [clusterPhase, hcl, hb]
  · rw [hdb]; simp [clusterPhase, hcl, h0]
  · rw [hdb]; simp [clusterPhase, hcl, hf]

/-- Witness for the amended C5: `databases` = 32 plus a cluster-enabled
report with a succeeding `CLUSTER INFO` resolves to 1. -/
theorem db_count_resolution_witness :
    goContains "cluster_enabled:1" "cluster_enabled:1" = true ∧
      clusterOkHost.clusterInfoFails = false ∧
      (scrapeRedisHost baseOpts clusterOkHost).map ScrapeRun.dbCount = some (some 1) :=
  ⟨by decide, rfl,
    (db_count_resolution baseOpts clusterOkHost [] 32 "cluster_enabled:1" rfl (by decide)
      (by decide)).1 (by decide) rfl⟩

/-- Claim C8: the per-key steps (check-keys, count-keys, streams) run exactly
when the detected role is slave or `SkipCheckKeysForRoleMaster` is unset;
when the gate is closed the scrape result is unchanged by replacing those
steps with empty ones — they contribute nothing. -/
theorem check_keys_gating (o : Opts) (h : Host) (co : List Obs) (db : Int) (s : String)
    (hconn : h.connectErr = none) (hcfg : configPhase o h = (co, CfgOut.ok db))
    (hinfo : resolveInfo h = Except.ok s) :
    (checkKeysGate h.role o.skipCheckKeysForRoleMaster = true ↔
      (h.role = Role.slave ∨ o.skipCheckKeysForRoleMaster = false)) ∧
    (checkKeysGate h.role o.skipCheckKeysForRoleMaster = false →
      scrapeRedisHost o h = scrapeRedisHost o (dropCheckSteps h)) := by
  constructor
  · cases hr : h.role <;> cases hs : o.skipCheckKeysForRoleMaster <;>
      simp [checkKeysGate, hr, hs] <;> decide
  · intro hg
    have hconn2 : (dropCheckSteps h).connectErr = none := hconn
    have hcfg2 : configPhase o (dropCheckSteps h) = (co, CfgOut.ok db) := hcfg
    have hinfo2 : resolveInfo (dropCheckSteps h) = Except.ok s := hinfo
    have htail : scrapeTail o (dropCheckSteps h) s db = scrapeTail o h s db :=
      scrapeTail_gate_false o h s db hg _ _ _
    rw [scrapeRedisHost_ok o h co db s hconn hcfg hinfo,
      scrapeRedisHost_ok o (dropCheckSteps h) co db s hconn2 hcfg2 hinfo2, htail]
    rfl

/-- Witness for C8: a master with the skip policy set has a closed gate and
an unchanged scrape under dropping the per-key steps. -/
theorem check_keys_gating_witness :
    checkKeysGate baseHost.role skipOpts.skipCheckKeysForRoleMaster = false ∧
      scrapeRedisHost skipOpts baseHost = scrapeRedisHost skipOpts (dropCheckSteps baseHost) :=
  ⟨by decide,
    (check_keys_gating skipOpts baseHost [] 0 "# Server\nrole:master" rfl (by decide)
      (by decide)).2 (by decide)⟩

/-- Claim C9, counterexample to the presence clause: with config metrics
included and redaction on, a sensitive key emits nothing at all — its
presence is not reflected in any observation. -/
theorem redacted_key_not_reflected_cex :
    redactOpts.inclConfigMetrics = true ∧ redactOpts.redactConfigMetrics = true ∧
      extractConfigMetrics redactOpts [some "requirepass", some "hunter2"] =
        ([], CfgOut.ok 0) :=
  ⟨rfl, rfl, by decide⟩

/-- Claim C9 (amended): with `InclConfigMetrics` and `RedactConfigMetrics`
set, two config replies differing only in the values of the sensitive keys
(`masterauth`, `requirepass`, `tls-key-file-pass`, `tls-client-key-file-pass`)
produce identical `extractConfigMetrics` results — in particular identical
`config_key_value` and `config_value` observation sequences, so no
observation carries a sensitive value; a sensitive pair contributes no
observation at all (its presence is not reflected). -/
theorem config_redaction_noninterference (o : Opts) (l1 l2 : List (Option String))
    (hincl : o.inclConfigMetrics = true) (hred : o.redactConfigMetrics = true)
    (heq : SensEquiv l1 l2) :
    extractConfigMetrics o l1 = extractConfigMetrics o l2 ∧
    (∀ k v rest db, sensitiveConfigKey k = true →
      cfgLoop o (some k :: some v :: rest) db = cfgLoop o rest db) := by
  constructor
  · unfold extractConfigMetrics
    rw [sensEquiv_length heq]
    by_cases hl : (l2.length % 2 != 0) = true
    · rw [if_pos hl, if_pos hl]
    · rw [if_neg hl, if_neg hl]
      exact cfgLoop_sensEquiv o hred heq 0
  · intro k v rest db hk
    exact cfgLoop_sens o hred k hk (some v) rest db

/-- Witness for the amended C9 on two replies differing in a `masterauth`
value. -/
theorem config_redaction_noninterference_witness :
    redactOpts.inclConfigMetrics = true ∧ redactOpts.redactConfigMetrics = true ∧
      extractConfigMetrics redactOpts
          [some "masterauth", some "s3cret", some "maxmemory", some "100"] =
        extractConfigMetrics redactOpts
          [some "masterauth", some "other", some "maxmemory", some "100"] :=
  ⟨rfl, rfl,
    (config_redaction_noninterference redactOpts _ _ rfl rfl
      (SensEquiv.sens "masterauth" (some "s3cret") (some "other") (by decide)
        (SensEquiv.same (some "maxmemory") (some "100") SensEquiv.nil))).1⟩

end RedisExporter
